import Mathlib

/-!
Verification of the CheckoutForm component
(src/live-coding/src/components/blocks/CheckoutForm/index.tsx).

The component wires a form-state binder and a schema validator around an
external payment-card utility library.  The utility library and the email
grammar of the schema validator are external black boxes (spec section 1);
they are embedded as abstract function parameters.  The schema rule chains,
custom predicates, message tables, change handlers and submit handler are
translated from the source file; the schema validator's evaluation of a
rule chain over a possibly-null field value (per-field error lists,
required/empty handling, collection of every failing rule's message) is
modelled from the spec, since the validator package itself is not part of
the sources here.
-/

namespace CheckoutForm

/-- Result of the card utility's `parseCardExpiry`: a month and a year,
each a JavaScript number that may be `NaN` (embedded as `none`). -/
structure Expiry where
  month : Option Int
  year : Option Int
deriving DecidableEq, Repr

/-- Abstract interface of the external `creditcardutils` library
(spec section 2): number validity (Luhn), formatting, brand detection,
expiry parsing and CVC validity.  `parseCardType` yields the detected
brand or `none`; `validateCardCVC` takes the value and a brand. -/
structure CardUtils where
  validateCardNumber : String → Bool
  formatCardNumber : String → String
  parseCardType : String → Option String
  parseCardExpiry : String → Expiry
  formatCardExpiry : String → String
  validateCardCVC : String → Option String → Bool

/-- JavaScript `a < b` on a number that may be `NaN` (`none`): any
comparison with `NaN` is false. -/
def jsLt (a : Option Int) (b : Int) : Bool :=
  match a with
  | none => false
  | some x => decide (x < b)

/-- JavaScript `a > b` on a number that may be `NaN` (`none`). -/
def jsGt (a : Option Int) (b : Int) : Bool :=
  match a with
  | none => false
  | some x => decide (x > b)

/-- The current calendar date as read by the predicates:
`new Date().getMonth() + 1` and `new Date().getFullYear()`. -/
structure Today where
  month : Int
  year : Int
deriving DecidableEq, Repr

/-- The FieldValues data object (source lines 38-44): every field is
`string | null`. -/
structure FieldValues where
  email : Option String
  card_number : Option String
  card_expire : Option String
  cvv : Option String
  card_type : Option String
deriving DecidableEq, Repr

/-- The all-null initial state (source lines 54-60). -/
def defaultState : FieldValues :=
  { email := none, card_number := none, card_expire := none,
    cvv := none, card_type := none }

/-- Message table of the `email` schema (source lines 79-83). -/
def emailMessages : String → String
  | "string.empty" => "Required"
  | "string.email" => "Must be a valid email"
  | "any.required" => "Required"
  | c => c

/-- Message table of the `card_number` schema (source lines 99-104). -/
def cardNumberMessages : String → String
  | "string.empty" => "Required"
  | "string.cardNumber" => "Must be a valid card"
  | "string.cardType" => "Must be a visa or master"
  | "any.required" => "Required"
  | c => c

/-- Message table of the `card_expire` schema (source lines 120-125). -/
def cardExpireMessages : String → String
  | "string.empty" => "Required"
  | "string.month" => "Invalid expire month"
  | "string.year" => "Invalid expire year"
  | "any.required" => "Required"
  | c => c

/-- Message table of the `cvv` schema (source lines 138-143). -/
def cvvMessages : String → String
  | "string.invalid" => "Invalid cvc"
  | "string.empty" => "Required"
  | "string.length" => "Maximum 3 digits"
  | "any.required" => "Required"
  | c => c

/-- Custom predicate of the `card_number` schema (source lines 85-97):
on a truthy value, a failed number-validity check yields the
`string.cardNumber` error code, and a null detected brand yields the
`string.cardType` error code. -/
def cardNumberCustom (u : CardUtils) (cardType : Option String)
    (value : String) : Option String :=
  if !(u.validateCardNumber value) then some "string.cardNumber"
  else if cardType = none then some "string.cardType"
  else none

/-- Custom predicate of the `card_expire` schema (source lines 106-118):
parse the value, reject with `string.month` when `month > 12` or
`month < current month`, otherwise with `string.year` when the year is
`NaN` or `year < current year`. -/
def cardExpireCustom (u : CardUtils) (today : Today)
    (value : String) : Option String :=
  let my := u.parseCardExpiry value
  if jsGt my.month 12 || jsLt my.month today.month then some "string.month"
  else if my.year.isNone || jsLt my.year today.year then some "string.year"
  else none

/-- Custom predicate of the `cvv` schema (source lines 127-135): on a
truthy value, a failed CVC check against the current brand yields the
`string.invalid` error code. -/
def cvvCustom (u : CardUtils) (cardType : Option String)
    (value : String) : Option String :=
  if !(u.validateCardCVC value cardType) then some "string.invalid"
  else none

/-- Modelled from the spec: the external Schema Validator's evaluation of
the `email` rule chain (`string.email` with the TLD allow-list disabled,
then `required`, source lines 74-83) over a `string | null` field value.
A missing or empty value yields the required-field message; otherwise the
email-grammar check (the abstract `grammar` parameter, standing for the
validator's email grammar with the TLD check disabled) decides between no
error and the format message. -/
def emailErrors (grammar : String → Bool) : Option String → List String
  | none => [emailMessages "any.required"]
  | some v =>
    if v = "" then [emailMessages "string.empty"]
    else if grammar v then [] else [emailMessages "string.email"]

/-- Modelled from the spec: the external Schema Validator's evaluation of
the `card_number` rule chain (custom predicate then `required`, source
lines 84-104).  A missing or empty value yields the required-field
message; otherwise the custom predicate's error code is translated through
the message table. -/
def cardNumberErrors (u : CardUtils) (cardType : Option String) :
    Option String → List String
  | none => [cardNumberMessages "any.required"]
  | some v =>
    if v = "" then [cardNumberMessages "string.empty"]
    else
      match cardNumberCustom u cardType v with
      | some code => [cardNumberMessages code]
      | none => []

/-- Modelled from the spec: the external Schema Validator's evaluation of
the `card_expire` rule chain (custom predicate then `required`, source
lines 105-125). -/
def cardExpireErrors (u : CardUtils) (today : Today) :
    Option String → List String
  | none => [cardExpireMessages "any.required"]
  | some v =>
    if v = "" then [cardExpireMessages "string.empty"]
    else
      match cardExpireCustom u today v with
      | some code => [cardExpireMessages code]
      | none => []

/-- Modelled from the spec: the external Schema Validator's evaluation of
the `cvv` rule chain (custom predicate, then `length(3)`, then `required`,
source lines 126-143).  A missing or empty value yields only the
required-field message; on a non-empty value every failing rule
contributes its message, in declaration order (the validator reports
per-field error lists, spec section 2, joined for display). -/
def cvvErrors (u : CardUtils) (cardType : Option String) :
    Option String → List String
  | none => [cvvMessages "any.required"]
  | some v =>
    if v = "" then [cvvMessages "string.empty"]
    else
      (match cvvCustom u cardType v with
       | some code => [cvvMessages code]
       | none => []) ++
      (if v.length = 3 then [] else [cvvMessages "string.length"])

/-- Brand normalisation inside `formatter.cardNumber` (source lines
165-172): `cardType` starts as `null`, becomes `"visa"` when the detected
brand is `visa`, `"mastercard"` when it is `mastercard`, and stays `null`
for every other detection result. -/
def detectBrand (pct : Option String) : Option String :=
  if pct = some "visa" then some "visa"
  else if pct = some "mastercard" then some "mastercard"
  else none

/-- The `formatter.cardNumber` change handler (source lines 163-176):
format the raw input, detect and normalise the brand from the formatted
value, then write the brand and the formatted value into the model. -/
def formatterCardNumber (u : CardUtils) (models : FieldValues)
    (raw : String) : FieldValues :=
  let value := u.formatCardNumber raw
  let cardType := detectBrand (u.parseCardType value)
  { models with card_type := cardType, card_number := some value }

/-- The `formatter.cardExpire` change handler (source lines 177-181). -/
def formatterCardExpire (u : CardUtils) (models : FieldValues)
    (raw : String) : FieldValues :=
  { models with card_expire := some (u.formatCardExpiry raw) }

/-- The validator's reactive state as used by the component: its data
snapshot `$data` and the aggregate invalid flag `$auto_invalid`. -/
structure ValidatorState where
  data : FieldValues
  auto_invalid : Bool
deriving DecidableEq, Repr

/-- Observable effects of the submit handler, in order of occurrence. -/
inductive SubmitEffect where
  | preventDefault : SubmitEffect
  | callOnSuccess : FieldValues → SubmitEffect
deriving DecidableEq, Repr

/-- The `onSubmit` handler (source lines 156-160): prevent the event's
default behaviour, then call the caller's `onSuccess` with `state.$data`.
The raw `models` object is in scope in the component but unused by the
handler; it is an explicit argument here so that independence from it can
be stated. -/
def onSubmit (models : FieldValues) (state : ValidatorState) :
    List SubmitEffect :=
  let _ := models
  [SubmitEffect.preventDefault, SubmitEffect.callOnSuccess state.data]

/-- JavaScript `Array.prototype.join(",")` as used by `getErrors`. -/
def joinComma : List String → String
  | [] => ""
  | [s] => s
  | s :: rest => s ++ "," ++ joinComma rest

/-- A per-field validator error entry; `getErrors` projects `$message`. -/
structure FieldError where
  message : String
deriving DecidableEq, Repr

/-- The `getErrors` helper (source lines 147-154): map each error entry of
the field to its `$message` and join with `","`. -/
def getErrors (errs : List FieldError) : String :=
  joinComma (errs.map FieldError.message)

/-- The submit trigger's disabled flag (source line 280):
`state.$auto_invalid || loading`. -/
def payButtonDisabled (state : ValidatorState) (loading : Bool) : Bool :=
  state.auto_invalid || loading

/-- A concrete instantiation of the card-utility interface, used to
evaluate the abstract theorems on explicit inputs. -/
def demoParseExpiry (s : String) : Expiry :=
  if s = "13/30" then { month := some 13, year := some 2030 }
  else if s = "01/30" then { month := some 1, year := some 2030 }
  else if s = "10/25" then { month := some 10, year := some 2025 }
  else { month := none, year := none }

/-- A concrete card-utility instance for evaluating theorems on explicit
inputs: one fixed valid card number, digit-prefix brand detection, the
explicit expiry table above, and a 3-digit CVC rule. -/
def demoUtils : CardUtils :=
  { validateCardNumber := fun s => s == "4242 4242 4242 4242"
    formatCardNumber := fun s => s
    parseCardType := fun s =>
      if s = "4242 4242 4242 4242" then some "visa"
      else if s = "5555 5555 5555 4444" then some "mastercard"
      else if s = "3782 822463 10005" then some "amex"
      else none
    parseCardExpiry := demoParseExpiry
    formatCardExpiry := fun s => s
    validateCardCVC := fun s _ => s.length == 3 }

/-- C1: For every non-empty card-number string, the value is accepted
(no errors) iff the utility's number-validity check passes and the
detected brand is non-null; a failed Luhn check yields exactly the
invalid-card message, a passed Luhn check with a null brand yields
exactly the unsupported-brand message, and an empty or missing value
yields the required-field message. -/
theorem card_number_validation (u : CardUtils) (ct : Option String)
    (v : String) (hv : v ≠ "") :
    (cardNumberErrors u ct (some v) = [] ↔
      u.validateCardNumber v = true ∧ ct ≠ none) ∧
    (u.validateCardNumber v = false →
      cardNumberErrors u ct (some v) = ["Must be a valid card"]) ∧
    (u.validateCardNumber v = true → ct = none →
      cardNumberErrors u ct (some v) = ["Must be a visa or master"]) ∧
    cardNumberErrors u ct (some "") = ["Required"] ∧
    cardNumberErrors u ct none = ["Required"] := by
  have h1 : cardNumberMessages "string.cardNumber" = "Must be a valid card" := by decide
  have h2 : cardNumberMessages "string.cardType" = "Must be a visa or master" := by decide
  cases hb : u.validateCardNumber v <;> rcases ct with _ | b <;>
    simp [cardNumberErrors, cardNumberCustom, hv, hb, h1, h2] <;> decide

/-- C1 witness: concrete evaluations of `card_number_validation`. -/
theorem card_number_validation_witness :
    cardNumberErrors demoUtils none (some "1234") = ["Must be a valid card"] ∧
    cardNumberErrors demoUtils none (some "4242 4242 4242 4242") =
      ["Must be a visa or master"] ∧
    cardNumberErrors demoUtils (some "visa") none = ["Required"] :=
  ⟨(card_number_validation demoUtils none "1234" (by decide)).2.1 (by decide),
   (card_number_validation demoUtils none "4242 4242 4242 4242"
      (by decide)).2.2.1 (by decide) rfl,
   (card_number_validation demoUtils (some "visa") "x" (by decide)).2.2.2.2⟩

/-- C2: For every non-empty expiry string, the parsed month failing the
range check (`month > 12` or `month < current month`) yields exactly the
month message; when the month check passes, a `NaN` or past year yields
exactly the year message; in particular any value parsing to month 13,
such as `"13/30"`, yields the month message. -/
theorem card_expire_validation (u : CardUtils) (today : Today)
    (v : String) (hv : v ≠ "") :
    (jsGt (u.parseCardExpiry v).month 12 = true ∨
        jsLt (u.parseCardExpiry v).month today.month = true →
      cardExpireErrors u today (some v) = ["Invalid expire month"]) ∧
    (jsGt (u.parseCardExpiry v).month 12 = false →
      jsLt (u.parseCardExpiry v).month today.month = false →
      (u.parseCardExpiry v).year = none ∨
        jsLt (u.parseCardExpiry v).year today.year = true →
      cardExpireErrors u today (some v) = ["Invalid expire year"]) ∧
    ((u.parseCardExpiry "13/30").month = some 13 →
      cardExpireErrors u today (some "13/30") = ["Invalid expire month"]) := by
  have h1 : cardExpireMessages "string.month" = "Invalid expire month" := by decide
  have h2 : cardExpireMessages "string.year" = "Invalid expire year" := by decide
  refine ⟨?_, ?_, ?_⟩
  · intro h
    have hor : (jsGt (u.parseCardExpiry v).month 12 ||
        jsLt (u.parseCardExpiry v).month today.month) = true := by
      rcases h with h | h <;> simp [h]
    simp [cardExpireErrors, cardExpireCustom, hv, hor, h1]
  · intro hgt hlt hy
    have hor : (jsGt (u.parseCardExpiry v).month 12 ||
        jsLt (u.parseCardExpiry v).month today.month) = false := by
      simp [hgt, hlt]
    have hy2 : ((u.parseCardExpiry v).year.isNone ||
        jsLt (u.parseCardExpiry v).year today.year) = true := by
      rcases hy with h | h <;> simp [h, Option.isNone]
    simp [cardExpireErrors, cardExpireCustom, hv, hor, hy2, h2]
  · intro h13
    have hor : (jsGt (u.parseCardExpiry "13/30").month 12 ||
        jsLt (u.parseCardExpiry "13/30").month today.month) = true := by
      simp [h13, jsGt]
    simp [cardExpireErrors, cardExpireCustom, hor, h1]

/-- C2 witness: concrete evaluations of `card_expire_validation`,
including the rejection of `"13/30"` with the month message. -/
theorem card_expire_validation_witness :
    cardExpireErrors demoUtils ⟨10, 2025⟩ (some "13/30") =
      ["Invalid expire month"] ∧
    cardExpireErrors demoUtils ⟨10, 2025⟩ (some "99/99") =
      ["Invalid expire year"] :=
  ⟨(card_expire_validation demoUtils ⟨10, 2025⟩ "13/30"
      (by decide)).2.2 (by decide),
   (card_expire_validation demoUtils ⟨10, 2025⟩ "99/99"
      (by decide)).2.1 (by decide) (by decide) (Or.inl (by decide))⟩

/-- C3 counterexample: with the current date October 2025, the value
`"01/30"` parses to month 1 and year 2030 — a month strictly below the
current month in a year strictly above the current year — yet the expiry
rule does not accept it: the claim that such values are accepted is false
at this input. -/
theorem expiry_past_month_future_year_not_accepted :
    (demoUtils.parseCardExpiry "01/30").month = some 1 ∧
    (demoUtils.parseCardExpiry "01/30").year = some 2030 ∧
    (1 : Int) < 10 ∧ (2025 : Int) < 2030 ∧
    cardExpireErrors demoUtils ⟨10, 2025⟩ (some "01/30") ≠ [] := by decide

/-- C3 amended: a past month in a future year is rejected, with the
month-range message — the month lower-bound check compares only against
the current month number regardless of year. -/
theorem expiry_past_month_future_year_rejected (u : CardUtils)
    (today : Today) (v : String) (m y : Int) (hv : v ≠ "")
    (hp : u.parseCardExpiry v = { month := some m, year := some y })
    (hm : m < today.month) (_hy : today.year < y) :
    cardExpireErrors u today (some v) = ["Invalid expire month"] := by
  have h1 : cardExpireMessages "string.month" = "Invalid expire month" := by decide
  have hor : (jsGt (u.parseCardExpiry v).month 12 ||
      jsLt (u.parseCardExpiry v).month today.month) = true := by
    simp [hp, jsLt, hm]
  simp [cardExpireErrors, cardExpireCustom, hv, hor, h1]

/-- C3 amended witness: concrete evaluation of
`expiry_past_month_future_year_rejected` at `"01/30"` in October 2025. -/
theorem expiry_past_month_future_year_rejected_witness :
    cardExpireErrors demoUtils ⟨10, 2025⟩ (some "01/30") =
      ["Invalid expire month"] :=
  expiry_past_month_future_year_rejected demoUtils ⟨10, 2025⟩ "01/30"
    1 2030 (by decide) (by decide) (by decide) (by decide)

/-- C4: For every non-empty CVV string, the value is accepted (no errors)
iff it is exactly 3 characters long and passes the CVC check against the
current brand; a wrong length contributes the length message, a failed
CVC check contributes the CVC message, an empty or missing value yields
the required-field message, and in particular `"12"` is rejected with the
length message whatever the brand. -/
theorem cvv_validation (u : CardUtils) (ct : Option String)
    (v : String) (hv : v ≠ "") :
    (cvvErrors u ct (some v) = [] ↔
      v.length = 3 ∧ u.validateCardCVC v ct = true) ∧
    (v.length ≠ 3 → "Maximum 3 digits" ∈ cvvErrors u ct (some v)) ∧
    (u.validateCardCVC v ct = false →
      "Invalid cvc" ∈ cvvErrors u ct (some v)) ∧
    cvvErrors u ct (some "") = ["Required"] ∧
    cvvErrors u ct none = ["Required"] ∧
    "Maximum 3 digits" ∈ cvvErrors u ct (some "12") := by
  have h1 : cvvMessages "string.invalid" = "Invalid cvc" := by decide
  have h2 : cvvMessages "string.length" = "Maximum 3 digits" := by decide
  cases hc : u.validateCardCVC v ct <;>
    cases hc12 : u.validateCardCVC "12" ct <;>
    by_cases hl : v.length = 3 <;>
    simp [cvvErrors, cvvCustom, hv, hc, hc12, hl, h1, h2] <;> decide

/-- C4 witness: concrete evaluations of `cvv_validation` for the CVV
`"12"` under two different brands. -/
theorem cvv_validation_witness :
    "Maximum 3 digits" ∈ cvvErrors demoUtils (some "visa") (some "12") ∧
    "Maximum 3 digits" ∈ cvvErrors demoUtils none (some "12") :=
  ⟨(cvv_validation demoUtils (some "visa") "12" (by decide)).2.2.2.2.2,
   (cvv_validation demoUtils none "12" (by decide)).2.2.2.2.2⟩

/-- C5: The submit handler first prevents the event's default behaviour,
then invokes the success callback exactly once with the validator's data
snapshot; its output is independent of the raw FieldValues model and of
the validator's invalid flag — no guard prevents the call while the form
is invalid. -/
theorem submit_invokes_success_callback (models models2 : FieldValues)
    (state state2 : ValidatorState) (h : state.data = state2.data) :
    onSubmit models state =
      [SubmitEffect.preventDefault,
       SubmitEffect.callOnSuccess state.data] ∧
    (onSubmit models state).head? = some SubmitEffect.preventDefault ∧
    (onSubmit models state).count
      (SubmitEffect.callOnSuccess state.data) = 1 ∧
    onSubmit models state = onSubmit models2 state2 := by
  refine ⟨rfl, rfl, ?_, by simp [onSubmit, h]⟩
  simp [onSubmit, List.count_cons]

/-- C5 witness: concrete evaluation of `submit_invokes_success_callback`,
with the two validator states differing in the invalid flag. -/
theorem submit_invokes_success_callback_witness :
    onSubmit defaultState ⟨defaultState, true⟩ =
      [SubmitEffect.preventDefault,
       SubmitEffect.callOnSuccess defaultState] ∧
    onSubmit defaultState ⟨defaultState, true⟩ =
      onSubmit defaultState ⟨defaultState, false⟩ :=
  ⟨(submit_invokes_success_callback defaultState defaultState
      ⟨defaultState, true⟩ ⟨defaultState, false⟩ rfl).1,
   (submit_invokes_success_callback defaultState defaultState
      ⟨defaultState, true⟩ ⟨defaultState, false⟩ rfl).2.2.2⟩

/-- C6: The email field is required (missing or empty values yield the
required-field message); a non-empty value is accepted iff it matches the
validator's email grammar with the TLD allow-list disabled, and rejected
with the format message otherwise; in particular a grammar under which
`"not-an-email"` fails is rejected with the format message and one under
which `"user@example.anytld"` passes is accepted. -/
theorem email_validation (grammar : String → Bool) (v : String)
    (hv : v ≠ "") :
    emailErrors grammar none = ["Required"] ∧
    emailErrors grammar (some "") = ["Required"] ∧
    (emailErrors grammar (some v) = [] ↔ grammar v = true) ∧
    (grammar v = false →
      emailErrors grammar (some v) = ["Must be a valid email"]) ∧
    (grammar "not-an-email" = false →
      emailErrors grammar (some "not-an-email") =
        ["Must be a valid email"]) ∧
    (grammar "user@example.anytld" = true →
      emailErrors grammar (some "user@example.anytld") = []) := by
  refine ⟨rfl, by simp [emailErrors]; decide, ?_, ?_, ?_, ?_⟩ <;>
    first
    | (cases hg : grammar v <;> simp [emailErrors, hv, hg] <;> decide)
    | (intro hg; simp [emailErrors, hg]; decide)

/-- C6 witness: concrete evaluation of `email_validation` under a grammar
accepting exactly `"user@example.anytld"`. -/
theorem email_validation_witness :
    emailErrors (fun s => s == "user@example.anytld")
        (some "not-an-email") = ["Must be a valid email"] ∧
    emailErrors (fun s => s == "user@example.anytld")
        (some "user@example.anytld") = [] :=
  ⟨(email_validation (fun s => s == "user@example.anytld") "not-an-email"
      (by decide)).2.2.2.2.1 (by decide),
   (email_validation (fun s => s == "user@example.anytld") "not-an-email"
      (by decide)).2.2.2.2.2 (by decide)⟩

/-- C7: On every card-number change, the handler writes the formatted
value into `card_number` and the normalised detected brand into
`card_type`; the brand written is `visa` or `mastercard` exactly when the
detection result is that brand, and `null` for every other detection
result, so `card_type` is always in the set recomputed from the current
`card_number`. -/
theorem card_number_change_brand_invariant (u : CardUtils)
    (models : FieldValues) (raw : String) :
    (formatterCardNumber u models raw).card_number =
      some (u.formatCardNumber raw) ∧
    (formatterCardNumber u models raw).card_type =
      detectBrand (u.parseCardType (u.formatCardNumber raw)) ∧
    ((formatterCardNumber u models raw).card_type = some "visa" ∨
      (formatterCardNumber u models raw).card_type = some "mastercard" ∨
      (formatterCardNumber u models raw).card_type = none) ∧
    (u.parseCardType (u.formatCardNumber raw) = some "visa" →
      (formatterCardNumber u models raw).card_type = some "visa") ∧
    (u.parseCardType (u.formatCardNumber raw) = some "mastercard" →
      (formatterCardNumber u models raw).card_type = some "mastercard") ∧
    (u.parseCardType (u.formatCardNumber raw) ≠ some "visa" →
      u.parseCardType (u.formatCardNumber raw) ≠ some "mastercard" →
      (formatterCardNumber u models raw).card_type = none) := by
  refine ⟨rfl, rfl, ?_, ?_, ?_, ?_⟩ <;>
    simp only [formatterCardNumber, detectBrand]
  · by_cases h1 : u.parseCardType (u.formatCardNumber raw) = some "visa" <;>
      by_cases h2 : u.parseCardType (u.formatCardNumber raw) = some "mastercard" <;>
      simp [h1, h2]
  · intro h; simp [h]
  · intro h; simp [h]
  · intro h1 h2; simp [h1, h2]

/-- C7 witness: concrete evaluations of
`card_number_change_brand_invariant` on a visa number and an
unrecognised brand. -/
theorem card_number_change_brand_invariant_witness :
    (formatterCardNumber demoUtils defaultState
        "4242 4242 4242 4242").card_type = some "visa" ∧
    (formatterCardNumber demoUtils defaultState
        "3782 822463 10005").card_type = none :=
  ⟨(card_number_change_brand_invariant demoUtils defaultState
      "4242 4242 4242 4242").2.2.2.1 (by decide),
   (card_number_change_brand_invariant demoUtils defaultState
      "3782 822463 10005").2.2.2.2.2 (by decide) (by decide)⟩

/-- C8: The submit trigger's disabled flag equals the aggregate invalid
flag OR the loading prop, and is true exactly when one of the two is. -/
theorem pay_button_disabled_iff (state : ValidatorState) (loading : Bool) :
    payButtonDisabled state loading = (state.auto_invalid || loading) ∧
    (payButtonDisabled state loading = true ↔
      state.auto_invalid = true ∨ loading = true) ∧
    (payButtonDisabled state loading = false ↔
      state.auto_invalid = false ∧ loading = false) := by
  cases h : state.auto_invalid <;> cases loading <;>
    simp [payButtonDisabled, h]

/-- Tail of a comma join: every element prefixed with a comma. -/
def commaRest : List String → String
  | [] => ""
  | x :: xs => "," ++ x ++ commaRest xs

/-- The accumulator loop of `String.intercalate` appends `commaRest`. -/
theorem intercalate_go_comma (as : List String) :
    ∀ acc, String.intercalate.go acc "," as = acc ++ commaRest as := by
  induction as with
  | nil => intro acc; simp [String.intercalate.go, commaRest]
  | cons x xs ih =>
    intro acc
    simp [String.intercalate.go, commaRest, ih, String.append_assoc]

/-- `joinComma` of a nonempty list is the head followed by `commaRest`. -/
theorem joinComma_cons_eq (as : List String) :
    ∀ a, joinComma (a :: as) = a ++ commaRest as := by
  induction as with
  | nil => intro a; simp [joinComma, commaRest]
  | cons x xs ih =>
    intro a
    show a ++ "," ++ joinComma (x :: xs) = a ++ commaRest (x :: xs)
    rw [ih x]
    simp [commaRest, String.append_assoc]

/-- The JavaScript comma join agrees with `String.intercalate ","`. -/
theorem joinComma_eq_intercalate (l : List String) :
    joinComma l = String.intercalate "," l := by
  cases l with
  | nil => rfl
  | cons a as =>
    rw [joinComma_cons_eq as a]
    show a ++ commaRest as = String.intercalate.go a "," as
    rw [intercalate_go_comma as a]

/-- C9: The displayed error string of a field is the comma-concatenation
(join with `","`) of the field's current error messages, and the empty
string when the field has no errors. -/
theorem get_errors_display (errs : List FieldError) :
    getErrors errs =
      String.intercalate "," (errs.map FieldError.message) ∧
    (errs = [] → getErrors errs = "") := by
  refine ⟨joinComma_eq_intercalate (errs.map FieldError.message), ?_⟩
  intro h
  rw [h]
  rfl

/-- C9 witness: concrete evaluations of `get_errors_display`. -/
theorem get_errors_display_witness :
    getErrors [] = "" ∧
    getErrors [⟨"Required"⟩, ⟨"Invalid cvc"⟩] = "Required,Invalid cvc" :=
  ⟨(get_errors_display []).2 rfl,
   (get_errors_display [⟨"Required"⟩, ⟨"Invalid cvc"⟩]).1.trans (by decide)⟩

/-- C10: A missing or empty `card_expire` or `cvv` value yields exactly
the required-field message, and the result is independent of the card
utilities, the current date and the detected brand — the custom
predicates (and so `parseCardExpiry` and `validateCardCVC`) are never
consulted on empty input. -/
theorem empty_value_skips_custom_predicates (u u2 : CardUtils)
    (today today2 : Today) (ct ct2 : Option String) (v : Option String)
    (hv : v = none ∨ v = some "") :
    cardExpireErrors u today v = ["Required"] ∧
    cvvErrors u ct v = ["Required"] ∧
    cardExpireErrors u today v = cardExpireErrors u2 today2 v ∧
    cvvErrors u ct v = cvvErrors u2 ct2 v := by
  rcases hv with h | h <;> subst h <;>
    refine ⟨?_, ?_, ?_, ?_⟩ <;> simp [cardExpireErrors, cvvErrors] <;> decide

/-- C10 witness: concrete evaluations of
`empty_value_skips_custom_predicates` on the empty string. -/
theorem empty_value_skips_custom_predicates_witness :
    cardExpireErrors demoUtils ⟨10, 2025⟩ (some "") = ["Required"] ∧
    cvvErrors demoUtils (some "visa") (some "") = ["Required"] :=
  ⟨(empty_value_skips_custom_predicates demoUtils demoUtils
      ⟨10, 2025⟩ ⟨1, 2000⟩ (some "visa") none (some "")
      (Or.inr rfl)).1,
   (empty_value_skips_custom_predicates demoUtils demoUtils
      ⟨10, 2025⟩ ⟨1, 2000⟩ (some "visa") none (some "")
      (Or.inr rfl)).2.1⟩

end CheckoutForm
